import Mathlib

/-!
Shallow embedding of the log-line interpretation and filtering engine of
tydar/pihole-log-explorer (src/LogLine.go and its duplicated twin in
src/main.go), together with proofs about the embedded code.

Strings are modelled as `List Char` (Go strings, read rune-wise).
Go panics (the explicit `panic(timeError)` at LogLine.go:42 and the runtime
index-out-of-range panic of `tokens[i]`) are modelled by `Except GoPanic`.
-/

namespace Pihole

/-- Go strings are modelled as lists of characters. -/
abbrev Str := List Char

/-- Turn a Lean string literal into the `List Char` model of a Go string. -/
def str (s : String) : Str := s.data

/-- Models Go `unicode.IsSpace` on the Latin-1 range: space, \t, \n, \v, \f,
\r, NEL (U+0085) and NBSP (U+00A0).  (For higher code points Go consults
Unicode tables; every input considered here is ASCII.) -/
def goIsSpace (c : Char) : Bool :=
  c = ' ' ∨ c = '\t' ∨ c = '\n' ∨ c.toNat = 11 ∨ c.toNat = 12 ∨
    c = '\r' ∨ c.toNat = 133 ∨ c.toNat = 160

/-- Worker for `fields`: `cur` holds the characters of the token currently
being read, in reverse order. -/
def fieldsAux : Str → Str → List Str
  | [], cur => if cur.isEmpty then [] else [cur.reverse]
  | c :: rest, cur =>
    if goIsSpace c then
      if cur.isEmpty then fieldsAux rest []
      else cur.reverse :: fieldsAux rest []
    else fieldsAux rest (c :: cur)

/-- Models Go `strings.Fields` (LogLine.go:34): split around each maximal run
of whitespace, dropping empty tokens. -/
def fields (l : Str) : List Str := fieldsAux l []

/-- The components of a Go `time.Time` that `time.Parse(time.Stamp, _)` can
produce: month (1-12), day, hour, minute, second.  The year of a stamp is
always 0 and the nanosecond field always 0, so they are omitted. -/
structure GoTime where
  month : Nat
  day : Nat
  hour : Nat
  minute : Nat
  second : Nat
deriving DecidableEq

/-- ASCII decimal digit test, as used by Go `time` package number parsing. -/
def isDigit (c : Char) : Bool := '0' ≤ c ∧ c ≤ '9'

/-- Numeric value of an ASCII digit. -/
def digitVal (c : Char) : Nat := c.toNat - '0'.toNat

/-- Models Go `time` package `getnum(value, false)`: one or two leading
digits, two preferred. -/
def getnum : Str → Option (Nat × Str)
  | c1 :: c2 :: rest =>
    if isDigit c1 then
      if isDigit c2 then some (digitVal c1 * 10 + digitVal c2, rest)
      else some (digitVal c1, c2 :: rest)
    else none
  | [c1] => if isDigit c1 then some (digitVal c1, []) else none
  | [] => none

/-- Models Go `time` package `getnum(value, true)`: exactly two leading
digits. -/
def getnum2 : Str → Option (Nat × Str)
  | c1 :: c2 :: rest =>
    if isDigit c1 ∧ isDigit c2 then some (digitVal c1 * 10 + digitVal c2, rest)
    else none
  | _ => none

/-- ASCII lower-casing, as in the Go `time` package's case-insensitive
`match` used by `lookup` over month names. -/
def lowerAscii (c : Char) : Char :=
  if 'A' ≤ c ∧ c ≤ 'Z' then Char.ofNat (c.toNat + 32) else c

/-- Month number for a lower-cased three-letter abbreviation, as in Go's
`shortMonthNames` lookup. -/
def monthNum (m : Str) : Option Nat :=
  if m = str "jan" then some 1
  else if m = str "feb" then some 2
  else if m = str "mar" then some 3
  else if m = str "apr" then some 4
  else if m = str "may" then some 5
  else if m = str "jun" then some 6
  else if m = str "jul" then some 7
  else if m = str "aug" then some 8
  else if m = str "sep" then some 9
  else if m = str "oct" then some 10
  else if m = str "nov" then some 11
  else if m = str "dec" then some 12
  else none

/-- Models Go `lookup(shortMonthNames, value)`: match a three-letter month
abbreviation case-insensitively at the head of the input. -/
def monthLookup : Str → Option (Nat × Str)
  | c1 :: c2 :: c3 :: rest =>
    match monthNum [lowerAscii c1, lowerAscii c2, lowerAscii c3] with
    | some m => some (m, rest)
    | none => none
  | _ => none

/-- Consume one expected literal character, as Go `time.Parse` does for the
literal separators of a layout. -/
def expectChar (c : Char) : Str → Option Str
  | d :: rest => if d = c then some rest else none
  | [] => none

/-- Days in each month of year 0 (Go's zero year, which is a leap year in
its proleptic calendar), as used by `time.Parse`'s final day-range check. -/
def daysInMonth : Nat → Nat
  | 1 => 31 | 2 => 29 | 3 => 31 | 4 => 30 | 5 => 31 | 6 => 30
  | 7 => 31 | 8 => 31 | 9 => 30 | 10 => 31 | 11 => 30 | 12 => 31
  | _ => 0

/-- Models Go `time.Parse(time.Stamp, s)` (layout `"Jan _2 15:04:05"`,
LogLine.go:40): month abbreviation, literal space, optionally space-padded
1-2 digit day, literal space, 1-2 digit hour, colon, 2-digit minute, colon,
2-digit second, no trailing text; hour < 24, minute < 60, second < 60, and
the day in range for the month. -/
def parseStamp (s : Str) : Option GoTime :=
  match monthLookup s with
  | none => none
  | some (mon, r1) =>
    match expectChar ' ' r1 with
    | none => none
    | some r2 =>
      let r2' := match r2 with
        | ' ' :: rest => rest
        | _ => r2
      match getnum r2' with
      | none => none
      | some (day, r3) =>
        match expectChar ' ' r3 with
        | none => none
        | some r4 =>
          match getnum r4 with
          | none => none
          | some (hour, r5) =>
            match expectChar ':' r5 with
            | none => none
            | some r6 =>
              match getnum2 r6 with
              | none => none
              | some (minute, r7) =>
                match expectChar ':' r7 with
                | none => none
                | some r8 =>
                  match getnum2 r8 with
                  | none => none
                  | some (sec, r9) =>
                    if r9 = [] ∧ hour < 24 ∧ minute < 60 ∧ sec < 60 ∧
                        1 ≤ day ∧ day ≤ daysInMonth mon then
                      some ⟨mon, day, hour, minute, sec⟩
                    else none

/-- The two ways the Go parser can panic: a runtime index-out-of-range panic
from `tokens[i]`, and the explicit `panic(timeError)` of LogLine.go:42. -/
inductive GoPanic where
  | indexOutOfRange (idx len : Nat)
  | timeParse (s : Str)
deriving DecidableEq

/-- Models the Go slice access `tokens[i]`: the value at `i`, or the
index-out-of-range runtime panic. -/
def goIndex (xs : List Str) (i : Nat) : Except GoPanic Str :=
  match xs[i]? with
  | some v => Except.ok v
  | none => Except.error (GoPanic.indexOutOfRange i xs.length)

/-- Models the Go fragment `timestamp, timeError := time.Parse(time.Stamp,
timeStr); if timeError != nil { panic(timeError) }` (LogLine.go:40-43). -/
def parseTimeStr (s : Str) : Except GoPanic GoTime :=
  match parseStamp s with
  | some ts => Except.ok ts
  | none => Except.error (GoPanic.timeParse s)

/-- LogLine.go:11 — `Blocked = "gravity blocked"`. -/
def Blocked : Str := str "gravity blocked"

/-- LogLine.go:12 — `Read = "read"`. -/
def Read : Str := str "read"

/-- LogLine.go:13 — `AAAA = "query[AAAA[]"`. -/
def AAAA : Str := str "query[AAAA[]"

/-- LogLine.go:14 — `A = "query[A[]"`. -/
def A : Str := str "query[A[]"

/-- LogLine.go:15 — `Ptr = "query[PTR[]"`. -/
def Ptr : Str := str "query[PTR[]"

/-- LogLine.go:16 — `Cached = "cached"`. -/
def Cached : Str := str "cached"

/-- LogLine.go:17 — `Forwarded = "forwarded"`. -/
def Forwarded : Str := str "forwarded"

/-- LogLine.go:18 — `Reply = "reply"`. -/
def Reply : Str := str "reply"

/-- LogLine.go:19 — `Unknown = "unknown"`. -/
def Unknown : Str := str "unknown"

/-- The record type `LogLine` (LogLine.go:22-30).  The old revision in
src/main.go declares a field-for-field identical type `logLine`; the
embedding shares this one record type for both. -/
structure LogLine where
  Timestamp : GoTime
  LineType : Str
  Result : Str
  Domain : Str
  Requester : Str
  Upstream : Str
  Line : Str
deriving DecidableEq

/-- The `switch tokens[4]` dispatch of LogLine.go:48-67. -/
def dispatchLineType (t : Str) : Str :=
  if t = str "gravity" then Blocked
  else if t = str "read" then Read
  else if t = str "query[AAAA]" then AAAA
  else if t = str "query[A]" then A
  else if t = str "query[PTR]" then Ptr
  else if t = str "cached" then Cached
  else if t = str "forwarded" then Forwarded
  else if t = str "reply" then Reply
  else Unknown

/-- LogLine.go:69-75 — result for cached, reply (token 7) and blocked
(token 8); empty otherwise. -/
def extractResult (tokens : List Str) (lineType : Str) : Except GoPanic Str :=
  if lineType = Cached ∨ lineType = Reply then goIndex tokens 7
  else if lineType = Blocked then goIndex tokens 8
  else Except.ok []

/-- LogLine.go:77-84 — domain for blocked (token 6) and for cached, reply,
query kinds, forwarded (token 5); empty otherwise. -/
def extractDomain (tokens : List Str) (lineType : Str) : Except GoPanic Str :=
  if lineType = Blocked then goIndex tokens 6
  else if lineType = Cached ∨ lineType = Reply ∨ lineType = AAAA ∨
      lineType = A ∨ lineType = Ptr ∨ lineType = Forwarded then
    goIndex tokens 5
  else Except.ok []

/-- LogLine.go:86-90 — requester for the query kinds (token 7); empty
otherwise. -/
def extractRequester (tokens : List Str) (lineType : Str) : Except GoPanic Str :=
  if lineType = A ∨ lineType = AAAA ∨ lineType = Ptr then goIndex tokens 7
  else Except.ok []

/-- LogLine.go:92-96 — upstream for forwarded (token 7); empty otherwise. -/
def extractUpstream (tokens : List Str) (lineType : Str) : Except GoPanic Str :=
  if lineType = Forwarded then goIndex tokens 7
  else Except.ok []

/-- Models `strings.ReplaceAll(line, "]", "[]")` (LogLine.go:99).  Since the
pattern is the single character `]`, ReplaceAll is exactly this per-character
expansion: each `]` becomes `[` followed by `]`, all other characters are
kept. -/
def sanitizeChars : Str → Str
  | [] => []
  | c :: rest =>
    if c = ']' then '[' :: ']' :: sanitizeChars rest
    else c :: sanitizeChars rest

/-- `UnmarshalLogLine` (LogLine.go:32-110), with Go panics reified as
`Except.error`, in the exact evaluation order of the source: tokens[0],
tokens[1], tokens[2], time.Parse, tokens[4], then result, domain, requester
and upstream extraction. -/
def UnmarshalLogLine (line : Str) : Except GoPanic LogLine :=
  let tokens := fields line
  Except.bind (goIndex tokens 0) fun t0 =>
  Except.bind (goIndex tokens 1) fun t1 =>
  Except.bind (goIndex tokens 2) fun t2 =>
  Except.bind (parseTimeStr (t0 ++ ' ' :: t1 ++ ' ' :: t2)) fun timestamp =>
  Except.bind (goIndex tokens 4) fun t4 =>
  let lineType := dispatchLineType t4
  Except.bind (extractResult tokens lineType) fun result =>
  Except.bind (extractDomain tokens lineType) fun domain =>
  Except.bind (extractRequester tokens lineType) fun requester =>
  Except.bind (extractUpstream tokens lineType) fun upstream =>
  Except.ok ⟨timestamp, lineType, result, domain, requester, upstream,
    sanitizeChars line⟩

/-- `FilterFunc` (LogLine.go:112). -/
abbrev FilterFunc := LogLine → Bool

/-- `FilterLogLine` (LogLine.go:114-124): the loop appends each line
satisfying `f` to a fresh slice, in order. -/
def FilterLogLine : List LogLine → FilterFunc → List LogLine
  | [], _ => []
  | x :: rest, f =>
    if f x then x :: FilterLogLine rest f else FilterLogLine rest f

/-- Does `pat` occur at the head of `s`?  (Go `strings.HasPrefix`.) -/
def startsWithL : Str → Str → Bool
  | _, [] => true
  | [], _ :: _ => false
  | c :: cs, d :: ds => c = d ∧ startsWithL cs ds

/-- Models Go `strings.Contains(s, pat)`: `pat` occurs as a contiguous
substring of `s`. -/
def containsSub : Str → Str → Bool
  | [], pat => pat.isEmpty
  | c :: rest, pat => startsWithL (c :: rest) pat || containsSub rest pat

/-- `TextSearchLogLine` (LogLine.go:126-132): a `FilterFunc` searching for
`s` anywhere in the (sanitized) line text. -/
def TextSearchLogLine (s : Str) : FilterFunc :=
  fun ll => containsSub ll.Line s

/-- Token at index `i` of the fields of `l` (empty when absent); used only
to state theorems about where parsed fields come from. -/
def tokD (l : Str) (i : Nat) : Str := ((fields l)[i]?).getD []

/-- The timestamp string LogLine.go:39 rebuilds from the first three
tokens. -/
def timeTokenStr (l : Str) : Str :=
  tokD l 0 ++ ' ' :: tokD l 1 ++ ' ' :: tokD l 2

/-- Models the load loop of main.go (`for line := range tf.Lines { logLine
:= UnmarshalLogLine(line.Text); logLines = append(logLines, logLine) }`):
a panic raised while unmarshalling any line aborts the whole load. -/
def loadLogLines : List Str → Except GoPanic (List LogLine)
  | [] => Except.ok []
  | l :: rest =>
    Except.bind (UnmarshalLogLine l) fun r =>
    Except.bind (loadLogLines rest) fun rs =>
    Except.ok (r :: rs)

/-- `unmarshalLogLine` of the duplicated implementation (src/main.go:72-150
of the pre-deduplication revision), embedded separately, with the field
extraction conditionals written out inline as in that file. -/
def unmarshalLogLine (line : Str) : Except GoPanic LogLine :=
  let tokens := fields line
  Except.bind (goIndex tokens 0) fun t0 =>
  Except.bind (goIndex tokens 1) fun t1 =>
  Except.bind (goIndex tokens 2) fun t2 =>
  Except.bind (parseTimeStr (t0 ++ ' ' :: t1 ++ ' ' :: t2)) fun timestamp =>
  Except.bind (goIndex tokens 4) fun t4 =>
  let lineType := dispatchLineType t4
  Except.bind
    (if lineType = Cached ∨ lineType = Reply then goIndex tokens 7
     else if lineType = Blocked then goIndex tokens 8
     else Except.ok []) fun result =>
  Except.bind
    (if lineType = Blocked then goIndex tokens 6
     else if lineType = Cached ∨ lineType = Reply ∨ lineType = AAAA ∨
         lineType = A ∨ lineType = Ptr ∨ lineType = Forwarded then
       goIndex tokens 5
     else Except.ok []) fun domain =>
  Except.bind
    (if lineType = A ∨ lineType = AAAA ∨ lineType = Ptr then goIndex tokens 7
     else Except.ok []) fun requester =>
  Except.bind
    (if lineType = Forwarded then goIndex tokens 7
     else Except.ok []) fun upstream =>
  Except.ok ⟨timestamp, lineType, result, domain, requester, upstream,
    sanitizeChars line⟩

/-- `filterLogLine` of the duplicated implementation (src/main.go:40-50). -/
def filterLogLine : List LogLine → FilterFunc → List LogLine
  | [], _ => []
  | x :: rest, f =>
    if f x then x :: filterLogLine rest f else filterLogLine rest f

/-- `textSearchLogLine` of the duplicated implementation
(src/main.go:52-58). -/
def textSearchLogLine (s : Str) : FilterFunc :=
  fun ll => containsSub ll.Line s

/-- Decidable equality for `Except`, so that concrete runs of the embedded
parser can be checked by `decide`. -/
instance exceptDecEq {ε α : Type} [DecidableEq ε] [DecidableEq α] :
    DecidableEq (Except ε α)
  | Except.error a, Except.error b =>
    if h : a = b then isTrue (by rw [h]) else isFalse (by simp [h])
  | Except.error _, Except.ok _ => isFalse (by simp)
  | Except.ok _, Except.error _ => isFalse (by simp)
  | Except.ok a, Except.ok b =>
    if h : a = b then isTrue (by rw [h]) else isFalse (by simp [h])

/-! ## Helper lemmas -/

/-- The embedded filter loop computes `List.filter`. -/
theorem filterLogLine_eq_filter (R : List LogLine) (f : FilterFunc) :
    FilterLogLine R f = R.filter f := by
  induction R with
  | nil => rfl
  | cons x rest ih => simp only [FilterLogLine, List.filter_cons, ih]

/-- C5: for every ordered sequence of records and every predicate, the
embedded `FilterLogLine` returns exactly the matching records (it computes
`List.filter`), the result is a subsequence of the input in the same
relative order, every returned record satisfies the predicate, and when
nothing matches the result is the empty sequence, not an error.  (The Go
loop appends matches to a fresh slice and never writes to `lines`, so
non-mutation of the input is inherent to this functional embedding.) -/
theorem filter_contract (R : List LogLine) (f : FilterFunc) :
    FilterLogLine R f = R.filter f ∧
    (FilterLogLine R f).Sublist R ∧
    (∀ r ∈ FilterLogLine R f, f r = true) ∧
    ((∀ r ∈ R, f r = false) → FilterLogLine R f = []) := by
  refine ⟨filterLogLine_eq_filter R f, ?_, ?_, ?_⟩
  · rw [filterLogLine_eq_filter]; exact List.filter_sublist R
  · intro r hr
    rw [filterLogLine_eq_filter] at hr
    exact (List.mem_filter.mp hr).2
  · intro hnone
    rw [filterLogLine_eq_filter]
    refine List.filter_eq_nil_iff.mpr fun a ha => ?_
    simp [hnone a ha]

/-- C5 witness: on a concrete one-record sequence and the constantly-false
predicate, the filter returns the empty sequence. -/
theorem filter_contract_witness :
    FilterLogLine [⟨⟨1, 2, 3, 4, 5⟩, Unknown, [], [], [], [], []⟩]
      (fun _ => false) = [] :=
  (filter_contract [⟨⟨1, 2, 3, 4, 5⟩, Unknown, [], [], [], [], []⟩]
    (fun _ => false)).2.2.2 (by intro r _; rfl)

/-- C8: filtering is idempotent — filtering an already-filtered sequence
with the same predicate changes nothing. -/
theorem filter_idempotent (R : List LogLine) (f : FilterFunc) :
    FilterLogLine (FilterLogLine R f) f = FilterLogLine R f := by
  rw [filterLogLine_eq_filter, filterLogLine_eq_filter,
    List.filter_filter]
  simp only [Bool.and_self]

/-- C9: the duplicated implementation in src/main.go is extensionally equal
to the deduplicated one in src/LogLine.go — `unmarshalLogLine` agrees with
`UnmarshalLogLine` on every input line, `filterLogLine` agrees with
`FilterLogLine` on every sequence and predicate, and `textSearchLogLine`
agrees with `TextSearchLogLine` on every needle and record. -/
theorem dedup_equivalence :
    (∀ l : Str, unmarshalLogLine l = UnmarshalLogLine l) ∧
    (∀ (R : List LogLine) (f : FilterFunc), filterLogLine R f = FilterLogLine R f) ∧
    (∀ (s : Str) (ll : LogLine), textSearchLogLine s ll = TextSearchLogLine s ll) := by
  refine ⟨fun l => rfl, fun R f => ?_, fun s ll => rfl⟩
  induction R with
  | nil => rfl
  | cons x rest ih => simp only [filterLogLine, FilterLogLine, ih]

/-- Evaluation skeleton: once the first five token accesses and the
timestamp parse succeed, `UnmarshalLogLine` reduces to the four field
extractions for the dispatched line type. -/
theorem unmarshal_eval (l t0 t1 t2 t4 : Str) (ts : GoTime)
    (h0 : (fields l)[0]? = some t0) (h1 : (fields l)[1]? = some t1)
    (h2 : (fields l)[2]? = some t2)
    (hts : parseStamp (t0 ++ ' ' :: t1 ++ ' ' :: t2) = some ts)
    (h4 : (fields l)[4]? = some t4) :
    UnmarshalLogLine l =
      (Except.bind (extractResult (fields l) (dispatchLineType t4)) fun result =>
       Except.bind (extractDomain (fields l) (dispatchLineType t4)) fun domain =>
       Except.bind (extractRequester (fields l) (dispatchLineType t4)) fun requester =>
       Except.bind (extractUpstream (fields l) (dispatchLineType t4)) fun upstream =>
       Except.ok ⟨ts, dispatchLineType t4, result, domain, requester, upstream,
         sanitizeChars l⟩) := by
  unfold UnmarshalLogLine
  simp only [goIndex, parseTimeStr, h0, h1, h2, h4, hts, Except.bind]

/-- Tokens exist below the length of the token list. -/
theorem exists_tok (l : Str) (i : Nat) (h : i < (fields l).length) :
    ∃ v, (fields l)[i]? = some v :=
  ⟨(fields l)[i], List.getElem?_eq_getElem h⟩

/-- Value of `tokD` at a present index. -/
theorem tokD_eq {l : Str} {i : Nat} {v : Str}
    (h : (fields l)[i]? = some v) : tokD l i = v := by
  simp [tokD, h]

/-- Rewriting the reconstructed timestamp string by the first three
tokens. -/
theorem timeTokenStr_eq {l : Str} {t0 t1 t2 : Str}
    (h0 : (fields l)[0]? = some t0) (h1 : (fields l)[1]? = some t1)
    (h2 : (fields l)[2]? = some t2) :
    timeTokenStr l = t0 ++ ' ' :: t1 ++ ' ' :: t2 := by
  simp [timeTokenStr, tokD, h0, h1, h2]

/-- Extractor values for a `cached` record. -/
theorem extract_cached (tokens : List Str) :
    extractResult tokens Cached = goIndex tokens 7 ∧
    extractDomain tokens Cached = goIndex tokens 5 ∧
    extractRequester tokens Cached = Except.ok [] ∧
    extractUpstream tokens Cached = Except.ok [] := by
  unfold extractResult extractDomain extractRequester extractUpstream
  refine ⟨?_, ?_, ?_, ?_⟩
  · rw [if_pos (by decide : Cached = Cached ∨ Cached = Reply)]
  · rw [if_neg (by decide : ¬Cached = Blocked),
      if_pos (by decide : Cached = Cached ∨ Cached = Reply ∨ Cached = AAAA ∨
        Cached = A ∨ Cached = Ptr ∨ Cached = Forwarded)]
  · rw [if_neg (by decide : ¬(Cached = A ∨ Cached = AAAA ∨ Cached = Ptr))]
  · rw [if_neg (by decide : ¬Cached = Forwarded)]

/-- Extractor values for a `reply` record. -/
theorem extract_reply (tokens : List Str) :
    extractResult tokens Reply = goIndex tokens 7 ∧
    extractDomain tokens Reply = goIndex tokens 5 ∧
    extractRequester tokens Reply = Except.ok [] ∧
    extractUpstream tokens Reply = Except.ok [] := by
  unfold extractResult extractDomain extractRequester extractUpstream
  refine ⟨?_, ?_, ?_, ?_⟩
  · rw [if_pos (by decide : Reply = Cached ∨ Reply = Reply)]
  · rw [if_neg (by decide : ¬Reply = Blocked),
      if_pos (by decide : Reply = Cached ∨ Reply = Reply ∨ Reply = AAAA ∨
        Reply = A ∨ Reply = Ptr ∨ Reply = Forwarded)]
  · rw [if_neg (by decide : ¬(Reply = A ∨ Reply = AAAA ∨ Reply = Ptr))]
  · rw [if_neg (by decide : ¬Reply = Forwarded)]

/-- Extractor values for a `blocked` record: the two keywords "gravity
blocked" shift the field indices up by one relative to the other kinds. -/
theorem extract_blocked (tokens : List Str) :
    extractResult tokens Blocked = goIndex tokens 8 ∧
    extractDomain tokens Blocked = goIndex tokens 6 ∧
    extractRequester tokens Blocked = Except.ok [] ∧
    extractUpstream tokens Blocked = Except.ok [] := by
  unfold extractResult extractDomain extractRequester extractUpstream
  refine ⟨?_, ?_, ?_, ?_⟩
  · rw [if_neg (by decide : ¬(Blocked = Cached ∨ Blocked = Reply)),
      if_pos (rfl : Blocked = Blocked)]
  · rw [if_pos (rfl : Blocked = Blocked)]
  · rw [if_neg (by decide : ¬(Blocked = A ∨ Blocked = AAAA ∨ Blocked = Ptr))]
  · rw [if_neg (by decide : ¬Blocked = Forwarded)]

/-- Extractor values for a `query[AAAA]` record. -/
theorem extract_aaaa (tokens : List Str) :
    extractResult tokens AAAA = Except.ok [] ∧
    extractDomain tokens AAAA = goIndex tokens 5 ∧
    extractRequester tokens AAAA = goIndex tokens 7 ∧
    extractUpstream tokens AAAA = Except.ok [] := by
  unfold extractResult extractDomain extractRequester extractUpstream
  refine ⟨?_, ?_, ?_, ?_⟩
  · rw [if_neg (by decide : ¬(AAAA = Cached ∨ AAAA = Reply)),
      if_neg (by decide : ¬AAAA = Blocked)]
  · rw [if_neg (by decide : ¬AAAA = Blocked),
      if_pos (by decide : AAAA = Cached ∨ AAAA = Reply ∨ AAAA = AAAA ∨
        AAAA = A ∨ AAAA = Ptr ∨ AAAA = Forwarded)]
  · rw [if_pos (by decide : AAAA = A ∨ AAAA = AAAA ∨ AAAA = Ptr)]
  · rw [if_neg (by decide : ¬AAAA = Forwarded)]

/-- Extractor values for a `query[A]` record. -/
theorem extract_a (tokens : List Str) :
    extractResult tokens A = Except.ok [] ∧
    extractDomain tokens A = goIndex tokens 5 ∧
    extractRequester tokens A = goIndex tokens 7 ∧
    extractUpstream tokens A = Except.ok [] := by
  unfold extractResult extractDomain extractRequester extractUpstream
  refine ⟨?_, ?_, ?_, ?_⟩
  · rw [if_neg (by decide : ¬(A = Cached ∨ A = Reply)),
      if_neg (by decide : ¬A = Blocked)]
  · rw [if_neg (by decide : ¬A = Blocked),
      if_pos (by decide : A = Cached ∨ A = Reply ∨ A = AAAA ∨
        A = A ∨ A = Ptr ∨ A = Forwarded)]
  · rw [if_pos (by decide : A = A ∨ A = AAAA ∨ A = Ptr)]
  · rw [if_neg (by decide : ¬A = Forwarded)]

/-- Extractor values for a `query[PTR]` record. -/
theorem extract_ptr (tokens : List Str) :
    extractResult tokens Ptr = Except.ok [] ∧
    extractDomain tokens Ptr = goIndex tokens 5 ∧
    extractRequester tokens Ptr = goIndex tokens 7 ∧
    extractUpstream tokens Ptr = Except.ok [] := by
  unfold extractResult extractDomain extractRequester extractUpstream
  refine ⟨?_, ?_, ?_, ?_⟩
  · rw [if_neg (by decide : ¬(Ptr = Cached ∨ Ptr = Reply)),
      if_neg (by decide : ¬Ptr = Blocked)]
  · rw [if_neg (by decide : ¬Ptr = Blocked),
      if_pos (by decide : Ptr = Cached ∨ Ptr = Reply ∨ Ptr = AAAA ∨
        Ptr = A ∨ Ptr = Ptr ∨ Ptr = Forwarded)]
  · rw [if_pos (by decide : Ptr = A ∨ Ptr = AAAA ∨ Ptr = Ptr)]
  · rw [if_neg (by decide : ¬Ptr = Forwarded)]

/-- Extractor values for a `forwarded` record. -/
theorem extract_forwarded (tokens : List Str) :
    extractResult tokens Forwarded = Except.ok [] ∧
    extractDomain tokens Forwarded = goIndex tokens 5 ∧
    extractRequester tokens Forwarded = Except.ok [] ∧
    extractUpstream tokens Forwarded = goIndex tokens 7 := by
  unfold extractResult extractDomain extractRequester extractUpstream
  refine ⟨?_, ?_, ?_, ?_⟩
  · rw [if_neg (by decide : ¬(Forwarded = Cached ∨ Forwarded = Reply)),
      if_neg (by decide : ¬Forwarded = Blocked)]
  · rw [if_neg (by decide : ¬Forwarded = Blocked),
      if_pos (by decide : Forwarded = Cached ∨ Forwarded = Reply ∨
        Forwarded = AAAA ∨ Forwarded = A ∨ Forwarded = Ptr ∨
        Forwarded = Forwarded)]
  · rw [if_neg (by decide : ¬(Forwarded = A ∨ Forwarded = AAAA ∨ Forwarded = Ptr))]
  · rw [if_pos (rfl : Forwarded = Forwarded)]

/-- Extractor values for an `unknown` record: everything empty, no token
access. -/
theorem extract_unknown (tokens : List Str) :
    extractResult tokens Unknown = Except.ok [] ∧
    extractDomain tokens Unknown = Except.ok [] ∧
    extractRequester tokens Unknown = Except.ok [] ∧
    extractUpstream tokens Unknown = Except.ok [] := by
  unfold extractResult extractDomain extractRequester extractUpstream
  refine ⟨?_, ?_, ?_, ?_⟩
  · rw [if_neg (by decide : ¬(Unknown = Cached ∨ Unknown = Reply)),
      if_neg (by decide : ¬Unknown = Blocked)]
  · rw [if_neg (by decide : ¬Unknown = Blocked),
      if_neg (by decide : ¬(Unknown = Cached ∨ Unknown = Reply ∨ Unknown = AAAA ∨
        Unknown = A ∨ Unknown = Ptr ∨ Unknown = Forwarded))]
  · rw [if_neg (by decide : ¬(Unknown = A ∨ Unknown = AAAA ∨ Unknown = Ptr))]
  · rw [if_neg (by decide : ¬Unknown = Forwarded)]

/-- C3: for every well-formed `cached`, `reply`, `blocked`, `query-*` or
`forwarded` line (valid timestamp, dispatch token at index 4, and at least
as many tokens as that kind's highest required index), `UnmarshalLogLine`
extracts exactly the fields specified for that kind — result only for
cached/reply (token 7) and blocked (token 8), domain for blocked (token 6)
and the rest (token 5), requester only for the query kinds (token 7),
upstream only for forwarded (token 7) — and leaves every field that is not
applicable to the classified kind equal to the empty string. -/
theorem parse_fields_by_kind :
    (∀ (l : Str) (ts : GoTime), (fields l)[4]? = some (str "cached") →
      8 ≤ (fields l).length → parseStamp (timeTokenStr l) = some ts →
      UnmarshalLogLine l =
        Except.ok ⟨ts, Cached, tokD l 7, tokD l 5, [], [], sanitizeChars l⟩) ∧
    (∀ (l : Str) (ts : GoTime), (fields l)[4]? = some (str "reply") →
      8 ≤ (fields l).length → parseStamp (timeTokenStr l) = some ts →
      UnmarshalLogLine l =
        Except.ok ⟨ts, Reply, tokD l 7, tokD l 5, [], [], sanitizeChars l⟩) ∧
    (∀ (l : Str) (ts : GoTime), (fields l)[4]? = some (str "gravity") →
      9 ≤ (fields l).length → parseStamp (timeTokenStr l) = some ts →
      UnmarshalLogLine l =
        Except.ok ⟨ts, Blocked, tokD l 8, tokD l 6, [], [], sanitizeChars l⟩) ∧
    (∀ (l : Str) (ts : GoTime), (fields l)[4]? = some (str "query[AAAA]") →
      8 ≤ (fields l).length → parseStamp (timeTokenStr l) = some ts →
      UnmarshalLogLine l =
        Except.ok ⟨ts, AAAA, [], tokD l 5, tokD l 7, [], sanitizeChars l⟩) ∧
    (∀ (l : Str) (ts : GoTime), (fields l)[4]? = some (str "query[A]") →
      8 ≤ (fields l).length → parseStamp (timeTokenStr l) = some ts →
      UnmarshalLogLine l =
        Except.ok ⟨ts, A, [], tokD l 5, tokD l 7, [], sanitizeChars l⟩) ∧
    (∀ (l : Str) (ts : GoTime), (fields l)[4]? = some (str "query[PTR]") →
      8 ≤ (fields l).length → parseStamp (timeTokenStr l) = some ts →
      UnmarshalLogLine l =
        Except.ok ⟨ts, Ptr, [], tokD l 5, tokD l 7, [], sanitizeChars l⟩) ∧
    (∀ (l : Str) (ts : GoTime), (fields l)[4]? = some (str "forwarded") →
      8 ≤ (fields l).length → parseStamp (timeTokenStr l) = some ts →
      UnmarshalLogLine l =
        Except.ok ⟨ts, Forwarded, [], tokD l 5, [], tokD l 7, sanitizeChars l⟩) := by
  refine ⟨?_, ?_, ?_, ?_, ?_, ?_, ?_⟩ <;> intro l ts h4 hlen hts <;>
    obtain ⟨t0, h0⟩ := exists_tok l 0 (by omega) <;>
    obtain ⟨t1, h1⟩ := exists_tok l 1 (by omega) <;>
    obtain ⟨t2, h2⟩ := exists_tok l 2 (by omega) <;>
    rw [timeTokenStr_eq h0 h1 h2] at hts <;>
    rw [unmarshal_eval l t0 t1 t2 _ ts h0 h1 h2 hts h4]
  · obtain ⟨t5, h5⟩ := exists_tok l 5 (by omega)
    obtain ⟨t7, h7⟩ := exists_tok l 7 (by omega)
    obtain ⟨e1, e2, e3, e4⟩ := extract_cached (fields l)
    rw [show dispatchLineType (str "cached") = Cached from by decide,
      e1, e2, e3, e4]
    simp only [goIndex, h5, h7, Except.bind, tokD_eq h5, tokD_eq h7]
  · obtain ⟨t5, h5⟩ := exists_tok l 5 (by omega)
    obtain ⟨t7, h7⟩ := exists_tok l 7 (by omega)
    obtain ⟨e1, e2, e3, e4⟩ := extract_reply (fields l)
    rw [show dispatchLineType (str "reply") = Reply from by decide,
      e1, e2, e3, e4]
    simp only [goIndex, h5, h7, Except.bind, tokD_eq h5, tokD_eq h7]
  · obtain ⟨t6, h6⟩ := exists_tok l 6 (by omega)
    obtain ⟨t8, h8⟩ := exists_tok l 8 (by omega)
    obtain ⟨e1, e2, e3, e4⟩ := extract_blocked (fields l)
    rw [show dispatchLineType (str "gravity") = Blocked from by decide,
      e1, e2, e3, e4]
    simp only [goIndex, h6, h8, Except.bind, tokD_eq h6, tokD_eq h8]
  · obtain ⟨t5, h5⟩ := exists_tok l 5 (by omega)
    obtain ⟨t7, h7⟩ := exists_tok l 7 (by omega)
    obtain ⟨e1, e2, e3, e4⟩ := extract_aaaa (fields l)
    rw [show dispatchLineType (str "query[AAAA]") = AAAA from by decide,
      e1, e2, e3, e4]
    simp only [goIndex, h5, h7, Except.bind, tokD_eq h5, tokD_eq h7]
  · obtain ⟨t5, h5⟩ := exists_tok l 5 (by omega)
    obtain ⟨t7, h7⟩ := exists_tok l 7 (by omega)
    obtain ⟨e1, e2, e3, e4⟩ := extract_a (fields l)
    rw [show dispatchLineType (str "query[A]") = A from by decide,
      e1, e2, e3, e4]
    simp only [goIndex, h5, h7, Except.bind, tokD_eq h5, tokD_eq h7]
  · obtain ⟨t5, h5⟩ := exists_tok l 5 (by omega)
    obtain ⟨t7, h7⟩ := exists_tok l 7 (by omega)
    obtain ⟨e1, e2, e3, e4⟩ := extract_ptr (fields l)
    rw [show dispatchLineType (str "query[PTR]") = Ptr from by decide,
      e1, e2, e3, e4]
    simp only [goIndex, h5, h7, Except.bind, tokD_eq h5, tokD_eq h7]
  · obtain ⟨t5, h5⟩ := exists_tok l 5 (by omega)
    obtain ⟨t7, h7⟩ := exists_tok l 7 (by omega)
    obtain ⟨e1, e2, e3, e4⟩ := extract_forwarded (fields l)
    rw [show dispatchLineType (str "forwarded") = Forwarded from by decide,
      e1, e2, e3, e4]
    simp only [goIndex, h5, h7, Except.bind, tokD_eq h5, tokD_eq h7]

/-- C3 witness: a concrete well-formed cached line parses to exactly the
specified fields. -/
theorem parse_fields_by_kind_witness :
    UnmarshalLogLine (str "Jan 2 03:04:05 dnsmasq[1]: cached example.com is 93.184.216.34") =
      Except.ok ⟨⟨1, 2, 3, 4, 5⟩, Cached,
        tokD (str "Jan 2 03:04:05 dnsmasq[1]: cached example.com is 93.184.216.34") 7,
        tokD (str "Jan 2 03:04:05 dnsmasq[1]: cached example.com is 93.184.216.34") 5,
        [], [],
        sanitizeChars (str "Jan 2 03:04:05 dnsmasq[1]: cached example.com is 93.184.216.34")⟩ :=
  parse_fields_by_kind.1
    (str "Jan 2 03:04:05 dnsmasq[1]: cached example.com is 93.184.216.34")
    ⟨1, 2, 3, 4, 5⟩ (by decide) (by decide) (by decide)

/-- C7: a line with a valid timestamp whose token at index 4 is none of the
eight dispatch keywords is classified `unknown`, with result, domain,
requester and upstream all empty and the line text preserved verbatim apart
from bracket escaping. -/
theorem unknown_kind_parse (l : Str) (t4 : Str) (ts : GoTime)
    (h4 : (fields l)[4]? = some t4)
    (hts : parseStamp (timeTokenStr l) = some ts)
    (hn : t4 ∉ [str "gravity", str "read", str "query[AAAA]", str "query[A]",
      str "query[PTR]", str "cached", str "forwarded", str "reply"]) :
    UnmarshalLogLine l =
      Except.ok ⟨ts, Unknown, [], [], [], [], sanitizeChars l⟩ := by
  have hlen : 4 < (fields l).length :=
    (List.getElem?_eq_some_iff.mp h4).1
  obtain ⟨t0, h0⟩ := exists_tok l 0 (by omega)
  obtain ⟨t1, h1⟩ := exists_tok l 1 (by omega)
  obtain ⟨t2, h2⟩ := exists_tok l 2 (by omega)
  rw [timeTokenStr_eq h0 h1 h2] at hts
  rw [unmarshal_eval l t0 t1 t2 t4 ts h0 h1 h2 hts h4]
  simp only [List.mem_cons, List.not_mem_nil, or_false, not_or] at hn
  obtain ⟨n1, n2, n3, n4, n5, n6, n7, n8⟩ := hn
  have hd : dispatchLineType t4 = Unknown := by
    unfold dispatchLineType
    rw [if_neg n1, if_neg n2, if_neg n3, if_neg n4, if_neg n5, if_neg n6,
      if_neg n7, if_neg n8]
  rw [hd]
  obtain ⟨e1, e2, e3, e4⟩ := extract_unknown (fields l)
  rw [e1, e2, e3, e4]
  simp only [Except.bind]

/-- C7 witness: a concrete line with the unrecognized dispatch token
"banana" parses to an `unknown` record with all structured fields empty. -/
theorem unknown_kind_parse_witness :
    UnmarshalLogLine (str "Jan 2 03:04:05 dnsmasq[1]: banana split") =
      Except.ok ⟨⟨1, 2, 3, 4, 5⟩, Unknown, [], [], [], [],
        sanitizeChars (str "Jan 2 03:04:05 dnsmasq[1]: banana split")⟩ :=
  unknown_kind_parse (str "Jan 2 03:04:05 dnsmasq[1]: banana split")
    (str "banana") ⟨1, 2, 3, 4, 5⟩ (by decide) (by decide) (by decide)

/-- C4 (Scenario B): the exact input line
`"Jan 2 03:04:05 dnsmasq[1]: gravity blocked example.org is 0.0.0.0"`
parses to a `blocked` record with domain `example.org` (token index 6) and
result `0.0.0.0` (token index 8 — the two keywords of a blocked line shift
each later field index up by one), with requester and upstream empty. -/
theorem scenario_blocked_parse :
    UnmarshalLogLine
      (str "Jan 2 03:04:05 dnsmasq[1]: gravity blocked example.org is 0.0.0.0") =
      Except.ok ⟨⟨1, 2, 3, 4, 5⟩, Blocked, str "0.0.0.0", str "example.org",
        [], [],
        str "Jan 2 03:04:05 dnsmasq[1[]: gravity blocked example.org is 0.0.0.0"⟩ ∧
    (fields (str "Jan 2 03:04:05 dnsmasq[1]: gravity blocked example.org is 0.0.0.0"))[6]? =
      some (str "example.org") ∧
    (fields (str "Jan 2 03:04:05 dnsmasq[1]: gravity blocked example.org is 0.0.0.0"))[8]? =
      some (str "0.0.0.0") := by
  decide

/-- C1: on a line whose first three tokens are not a valid timestamp, the
code does surface a distinct error (the reified `panic(timeError)` of
LogLine.go:42 carrying the offending timestamp string) and does not default
the timestamp — but the panic aborts the whole load: with a malformed first
line, `loadLogLines` fails for the entire batch even though the second line
parses fine on its own, contradicting the claim that a single malformed
line never aborts parsing of the remaining lines. -/
theorem timestamp_panic_aborts_batch :
    UnmarshalLogLine
      (str "XXX 2 03:04:05 dnsmasq[1]: cached example.com is 93.184.216.34") =
      Except.error (GoPanic.timeParse (str "XXX 2 03:04:05")) ∧
    UnmarshalLogLine
      (str "Feb 3 04:05:06 dnsmasq[1]: cached example.com is 93.184.216.34") =
      Except.ok ⟨⟨2, 3, 4, 5, 6⟩, Cached, str "93.184.216.34",
        str "example.com", [], [],
        str "Feb 3 04:05:06 dnsmasq[1[]: cached example.com is 93.184.216.34"⟩ ∧
    loadLogLines
      [str "XXX 2 03:04:05 dnsmasq[1]: cached example.com is 93.184.216.34",
       str "Feb 3 04:05:06 dnsmasq[1]: cached example.com is 93.184.216.34"] =
      Except.error (GoPanic.timeParse (str "XXX 2 03:04:05")) := by
  decide

/-- C2: on a line whose dispatch token classifies it as `cached` but which
has only 5 tokens, the code reaches `tokens[7]` and raises the Go runtime
index-out-of-range panic (reified here as `GoPanic.indexOutOfRange 7 5`)
instead of reporting a recoverable per-line truncation error; the panic
crashes the processing of the whole batch, as the `loadLogLines` run with a
well-formed second line shows. -/
theorem truncated_line_panics :
    UnmarshalLogLine (str "Jan 2 03:04:05 dnsmasq[1]: cached") =
      Except.error (GoPanic.indexOutOfRange 7 5) ∧
    UnmarshalLogLine (str "Mar 4 05:06:07 dnsmasq[1]: forwarded example.net to 1.1.1.1") =
      Except.ok ⟨⟨3, 4, 5, 6, 7⟩, Forwarded, [], str "example.net", [],
        str "1.1.1.1",
        str "Mar 4 05:06:07 dnsmasq[1[]: forwarded example.net to 1.1.1.1"⟩ ∧
    loadLogLines
      [str "Jan 2 03:04:05 dnsmasq[1]: cached",
       str "Mar 4 05:06:07 dnsmasq[1]: forwarded example.net to 1.1.1.1"] =
      Except.error (GoPanic.indexOutOfRange 7 5) := by
  decide

/-- Inverting a successful `Except.bind`. -/
theorem bind_ok_inv {ε α β : Type} {e : Except ε α} {f : α → Except ε β} {b : β}
    (h : Except.bind e f = Except.ok b) :
    ∃ a, e = Except.ok a ∧ f a = Except.ok b := by
  cases e with
  | error err => simp [Except.bind] at h
  | ok a => exact ⟨a, rfl, h⟩

/-- Inverting a successful `goIndex`. -/
theorem goIndex_ok_inv {xs : List Str} {i : Nat} {v : Str}
    (h : goIndex xs i = Except.ok v) : xs[i]? = some v := by
  cases hx : xs[i]? with
  | none => simp [goIndex, hx] at h
  | some w =>
    simp only [goIndex, hx, Except.ok.injEq] at h
    exact congrArg some h

/-- Shape of every successfully parsed record: its `Line` is the sanitized
input and its `LineType` is the dispatch of the token at index 4. -/
theorem unmarshal_ok_shape (l : Str) (r : LogLine)
    (h : UnmarshalLogLine l = Except.ok r) :
    r.Line = sanitizeChars l ∧
    ∃ t4, (fields l)[4]? = some t4 ∧ r.LineType = dispatchLineType t4 := by
  unfold UnmarshalLogLine at h
  obtain ⟨t0, hg0, h⟩ := bind_ok_inv h
  obtain ⟨t1, hg1, h⟩ := bind_ok_inv h
  obtain ⟨t2, hg2, h⟩ := bind_ok_inv h
  obtain ⟨tsv, hgt, h⟩ := bind_ok_inv h
  obtain ⟨t4, hg4, h⟩ := bind_ok_inv h
  obtain ⟨res, hgr, h⟩ := bind_ok_inv h
  obtain ⟨dom, hgd, h⟩ := bind_ok_inv h
  obtain ⟨req, hgq, h⟩ := bind_ok_inv h
  obtain ⟨ups, hgu, h⟩ := bind_ok_inv h
  injection h with h
  subst h
  exact ⟨rfl, t4, goIndex_ok_inv hg4, rfl⟩

/-- Sanitizing a line that starts with `]` yields `[`, `]`, then the
sanitized rest. -/
theorem sanitize_cons_bracket (rest : Str) :
    sanitizeChars (']' :: rest) = '[' :: ']' :: sanitizeChars rest := by
  simp [sanitizeChars]

/-- Sanitizing a line that starts with any other character keeps it. -/
theorem sanitize_cons_other {c : Char} (hc : c ≠ ']') (rest : Str) :
    sanitizeChars (c :: rest) = c :: sanitizeChars rest := by
  simp [sanitizeChars, hc]

/-- Every `]` in a sanitized line is immediately preceded by `[`. -/
theorem sanitize_bracket (l : Str) :
    ∀ i, (sanitizeChars l)[i]? = some ']' →
      ∃ j, i = j + 1 ∧ (sanitizeChars l)[j]? = some '[' := by
  induction l with
  | nil => intro i h; simp [sanitizeChars] at h
  | cons c rest ih =>
    intro i h
    by_cases hc : c = ']'
    · subst hc
      rw [sanitize_cons_bracket] at h ⊢
      match i, h with
      | 0, h =>
        rw [List.getElem?_cons_zero] at h
        exact absurd (Option.some.inj h) (by decide)
      | 1, h => exact ⟨0, rfl, rfl⟩
      | (m + 2), h =>
        rw [List.getElem?_cons_succ, List.getElem?_cons_succ] at h
        obtain ⟨j, hj1, hj2⟩ := ih m h
        refine ⟨j + 2, by omega, ?_⟩
        rw [List.getElem?_cons_succ, List.getElem?_cons_succ]
        exact hj2
    · rw [sanitize_cons_other hc] at h ⊢
      match i, h with
      | 0, h =>
        rw [List.getElem?_cons_zero] at h
        exact absurd (Option.some.inj h) hc
      | (n + 1), h =>
        rw [List.getElem?_cons_succ] at h
        obtain ⟨j, hj1, hj2⟩ := ih n h
        refine ⟨j + 1, by omega, ?_⟩
        rw [List.getElem?_cons_succ]
        exact hj2

/-- C6: the `Line` field of every record produced by the parser is the
original line with every `]` replaced by `[]`, and consequently every `]`
occurring in it is immediately preceded by `[` — it never contains an
unescaped `]`. -/
theorem raw_bracket_escaped (l : Str) (r : LogLine)
    (h : UnmarshalLogLine l = Except.ok r) :
    r.Line = sanitizeChars l ∧
    ∀ i, (r.Line)[i]? = some ']' →
      ∃ j, i = j + 1 ∧ (r.Line)[j]? = some '[' := by
  obtain ⟨hline, -⟩ := unmarshal_ok_shape l r h
  rw [hline]
  exact ⟨rfl, sanitize_bracket l⟩

/-- C6 witness: on a concrete reply line containing `]`, the parsed record's
line text is the bracket-escaped original and has no unescaped `]`. -/
theorem raw_bracket_escaped_witness :
    (⟨⟨1, 2, 3, 4, 5⟩, Reply, str "93.184.216.34", str "example.com", [], [],
      str "Jan 2 03:04:05 dnsmasq[1[]: reply example.com is 93.184.216.34"⟩ :
        LogLine).Line =
      sanitizeChars (str "Jan 2 03:04:05 dnsmasq[1]: reply example.com is 93.184.216.34") ∧
    ∀ i, ((⟨⟨1, 2, 3, 4, 5⟩, Reply, str "93.184.216.34", str "example.com",
        [], [],
        str "Jan 2 03:04:05 dnsmasq[1[]: reply example.com is 93.184.216.34"⟩ :
          LogLine).Line)[i]? = some ']' →
      ∃ j, i = j + 1 ∧
        ((⟨⟨1, 2, 3, 4, 5⟩, Reply, str "93.184.216.34", str "example.com",
          [], [],
          str "Jan 2 03:04:05 dnsmasq[1[]: reply example.com is 93.184.216.34"⟩ :
            LogLine).Line)[j]? = some '[' :=
  raw_bracket_escaped
    (str "Jan 2 03:04:05 dnsmasq[1]: reply example.com is 93.184.216.34")
    ⟨⟨1, 2, 3, 4, 5⟩, Reply, str "93.184.216.34", str "example.com", [], [],
      str "Jan 2 03:04:05 dnsmasq[1[]: reply example.com is 93.184.216.34"⟩
    (by decide)

/-- The dispatch table takes only the nine declared values. -/
theorem dispatch_cases (t : Str) :
    dispatchLineType t = Blocked ∨ dispatchLineType t = Read ∨
    dispatchLineType t = AAAA ∨ dispatchLineType t = A ∨
    dispatchLineType t = Ptr ∨ dispatchLineType t = Cached ∨
    dispatchLineType t = Forwarded ∨ dispatchLineType t = Reply ∨
    dispatchLineType t = Unknown := by
  unfold dispatchLineType
  split_ifs <;> simp

/-- C10: the `LineType` stored in every parsed record is one of exactly nine
literals — `"gravity blocked"`, `"read"`, `"query[AAAA[]"`, `"query[A[]"`,
`"query[PTR[]"`, `"cached"`, `"forwarded"`, `"reply"`, `"unknown"` — with
the display bracket-escape baked into the query labels and the two-word
blocked label; in particular it is never one of the raw dispatch tokens
`"gravity"`, `"blocked"`, `"query[AAAA]"`, `"query[A]"`, `"query[PTR]"`. -/
theorem lineType_closed_set (l : Str) (r : LogLine)
    (h : UnmarshalLogLine l = Except.ok r) :
    (r.LineType = str "gravity blocked" ∨ r.LineType = str "read" ∨
     r.LineType = str "query[AAAA[]" ∨ r.LineType = str "query[A[]" ∨
     r.LineType = str "query[PTR[]" ∨ r.LineType = str "cached" ∨
     r.LineType = str "forwarded" ∨ r.LineType = str "reply" ∨
     r.LineType = str "unknown") ∧
    r.LineType ≠ str "gravity" ∧ r.LineType ≠ str "blocked" ∧
    r.LineType ≠ str "query[AAAA]" ∧ r.LineType ≠ str "query[A]" ∧
    r.LineType ≠ str "query[PTR]" := by
  obtain ⟨-, t4, -, hlt⟩ := unmarshal_ok_shape l r h
  rw [hlt]
  rcases dispatch_cases t4 with hd|hd|hd|hd|hd|hd|hd|hd|hd <;> rw [hd] <;>
    decide

/-- C10 witness: the record parsed from a concrete `query[A]` line stores
the escaped label `"query[A[]"`, not the raw dispatch token. -/
theorem lineType_closed_set_witness :
    ((⟨⟨4, 5, 6, 7, 8⟩, A, [], str "example.com", str "10.0.0.5", [],
      str "Apr 5 06:07:08 dnsmasq[1[]: query[A[] example.com from 10.0.0.5"⟩ :
        LogLine).LineType = str "gravity blocked" ∨
     (⟨⟨4, 5, 6, 7, 8⟩, A, [], str "example.com", str "10.0.0.5", [],
      str "Apr 5 06:07:08 dnsmasq[1[]: query[A[] example.com from 10.0.0.5"⟩ :
        LogLine).LineType = str "read" ∨
     (⟨⟨4, 5, 6, 7, 8⟩, A, [], str "example.com", str "10.0.0.5", [],
      str "Apr 5 06:07:08 dnsmasq[1[]: query[A[] example.com from 10.0.0.5"⟩ :
        LogLine).LineType = str "query[AAAA[]" ∨
     (⟨⟨4, 5, 6, 7, 8⟩, A, [], str "example.com", str "10.0.0.5", [],
      str "Apr 5 06:07:08 dnsmasq[1[]: query[A[] example.com from 10.0.0.5"⟩ :
        LogLine).LineType = str "query[A[]" ∨
     (⟨⟨4, 5, 6, 7, 8⟩, A, [], str "example.com", str "10.0.0.5", [],
      str "Apr 5 06:07:08 dnsmasq[1[]: query[A[] example.com from 10.0.0.5"⟩ :
        LogLine).LineType = str "query[PTR[]" ∨
     (⟨⟨4, 5, 6, 7, 8⟩, A, [], str "example.com", str "10.0.0.5", [],
      str "Apr 5 06:07:08 dnsmasq[1[]: query[A[] example.com from 10.0.0.5"⟩ :
        LogLine).LineType = str "cached" ∨
     (⟨⟨4, 5, 6, 7, 8⟩, A, [], str "example.com", str "10.0.0.5", [],
      str "Apr 5 06:07:08 dnsmasq[1[]: query[A[] example.com from 10.0.0.5"⟩ :
        LogLine).LineType = str "forwarded" ∨
     (⟨⟨4, 5, 6, 7, 8⟩, A, [], str "example.com", str "10.0.0.5", [],
      str "Apr 5 06:07:08 dnsmasq[1[]: query[A[] example.com from 10.0.0.5"⟩ :
        LogLine).LineType = str "reply" ∨
     (⟨⟨4, 5, 6, 7, 8⟩, A, [], str "example.com", str "10.0.0.5", [],
      str "Apr 5 06:07:08 dnsmasq[1[]: query[A[] example.com from 10.0.0.5"⟩ :
        LogLine).LineType = str "unknown") ∧
    (⟨⟨4, 5, 6, 7, 8⟩, A, [], str "example.com", str "10.0.0.5", [],
      str "Apr 5 06:07:08 dnsmasq[1[]: query[A[] example.com from 10.0.0.5"⟩ :
        LogLine).LineType ≠ str "gravity" ∧
    (⟨⟨4, 5, 6, 7, 8⟩, A, [], str "example.com", str "10.0.0.5", [],
      str "Apr 5 06:07:08 dnsmasq[1[]: query[A[] example.com from 10.0.0.5"⟩ :
        LogLine).LineType ≠ str "blocked" ∧
    (⟨⟨4, 5, 6, 7, 8⟩, A, [], str "example.com", str "10.0.0.5", [],
      str "Apr 5 06:07:08 dnsmasq[1[]: query[A[] example.com from 10.0.0.5"⟩ :
        LogLine).LineType ≠ str "query[AAAA]" ∧
    (⟨⟨4, 5, 6, 7, 8⟩, A, [], str "example.com", str "10.0.0.5", [],
      str "Apr 5 06:07:08 dnsmasq[1[]: query[A[] example.com from 10.0.0.5"⟩ :
        LogLine).LineType ≠ str "query[A]" ∧
    (⟨⟨4, 5, 6, 7, 8⟩, A, [], str "example.com", str "10.0.0.5", [],
      str "Apr 5 06:07:08 dnsmasq[1[]: query[A[] example.com from 10.0.0.5"⟩ :
        LogLine).LineType ≠ str "query[PTR]" :=
  lineType_closed_set
    (str "Apr 5 06:07:08 dnsmasq[1]: query[A] example.com from 10.0.0.5")
    ⟨⟨4, 5, 6, 7, 8⟩, A, [], str "example.com", str "10.0.0.5", [],
      str "Apr 5 06:07:08 dnsmasq[1[]: query[A[] example.com from 10.0.0.5"⟩
    (by decide)

end Pihole
